import Mathlib

/-!
Shallow embedding of `scripts/move_and_relink.py`.

Paths are modelled as lists of segments below the filesystem root: the Python
path `/proj/lib.so` becomes `["proj", "lib.so"]`.  A path expression handed to
the OS may additionally contain the literal segments `".."` and `"."`.
The Python `Path.parts` tuple of an absolute path carries a leading `"/"`
element; `parts` below reproduces that.

The filesystem is an association list from canonical absolute paths to
entries.  A symlink entry stores its raw text, split into an absolute flag and
segments (the raw text `../lib.so` is stored as `(false, ["..", "lib.so"])`).

Python calls that raise an uncaught exception (`Path.samefile` on a missing
path, `Path.relative_to` on a non-ancestor, `Path.readlink` on a non-symlink)
are modelled with `Except Unit`, `.error ()` standing for the raised exception.
-/

namespace MoveAndRelink

inductive Entry where
  | file : Entry
  | dir : Entry
  | symlink (ab : Bool) (raw : List String) : Entry
deriving DecidableEq

abbrev Fs := List (List String × Entry)

/-- Lookup of the entry stored at a canonical absolute path. -/
def lookup (fs : Fs) (p : List String) : Option Entry :=
  (fs.find? (fun e => e.1 == p)).map (fun e => e.2)

/-- Resolution fuel: bounds the number of symlink jumps followed. -/
def FUEL : Nat := 100

/-- Canonicalisation of a path expression, walking segment by segment from the
canonical directory `cur`, following symlinks (spending one unit of fuel per
symlink jump) and resolving `..`/`.` physically; a component that does not
exist is kept textually, matching `Path.resolve(strict=False)`. -/
def resolveFrom (fs : Fs) : Nat → List String → List String → Option (List String)
  | 0, _, _ => none
  | _ + 1, cur, [] => some cur
  | fuel + 1, cur, seg :: rest =>
    if seg = ".." then resolveFrom fs fuel cur.dropLast rest
    else if seg = "." then resolveFrom fs fuel cur rest
    else
      match lookup fs (cur ++ [seg]) with
      | some (.symlink ab raw) =>
        resolveFrom fs fuel (if ab then [] else cur) (raw ++ rest)
      | _ => resolveFrom fs fuel (cur ++ [seg]) rest

/-- `Path.resolve()` from the root. -/
def pathResolve (fs : Fs) (p : List String) : Option (List String) :=
  resolveFrom fs FUEL [] p

/-- The entry a `stat` call (following symlinks) finds at a path expression. -/
def statEntry (fs : Fs) (p : List String) : Option Entry :=
  (pathResolve fs p).bind (fun c => lookup fs c)

/-- `Path.exists()`. -/
def statExists (fs : Fs) (p : List String) : Bool :=
  (statEntry fs p).isSome

/-- `Path.is_dir()`. -/
def is_dir (fs : Fs) (p : List String) : Bool :=
  match statEntry fs p with
  | some .dir => true
  | _ => false

/-- `Path.is_file()`. -/
def is_file (fs : Fs) (p : List String) : Bool :=
  match statEntry fs p with
  | some .file => true
  | _ => false

/-- The entry an `lstat` call finds: the leading components are fully
resolved, the final component is not followed. -/
def lstatEntry (fs : Fs) (p : List String) : Option Entry :=
  match p.getLast? with
  | none => lookup fs []
  | some last =>
    if last = ".." ∨ last = "." then statEntry fs p
    else (pathResolve fs p.dropLast).bind (fun d => lookup fs (d ++ [last]))

/-- `Path.is_symlink()`. -/
def is_symlink (fs : Fs) (p : List String) : Bool :=
  match lstatEntry fs p with
  | some (.symlink _ _) => true
  | _ => false

/-- `Path.readlink()`: the raw text of the symlink at `p`, `none` when the
call would raise. -/
def readlink (fs : Fs) (p : List String) : Option (Bool × List String) :=
  match lstatEntry fs p with
  | some (.symlink ab raw) => some (ab, raw)
  | _ => none

/-- `Path.samefile`: `none` models the `FileNotFoundError` raised when either
side does not exist; otherwise whether both canonicalise to the same entity. -/
def samefile (fs : Fs) (a b : List String) : Option Bool :=
  match pathResolve fs a, pathResolve fs b with
  | some ca, some cb =>
    if (lookup fs ca).isSome && (lookup fs cb).isSome then some (ca == cb) else none
  | _, _ => none

/-- `dir / raw`: joining a directory with a symlink's raw text. -/
def joinRel (dir : List String) : Bool × List String → List String
  | (true, raw) => raw
  | (false, raw) => dir ++ raw

/-- The `Path.parts` tuple of an absolute path: a leading `"/"` element. -/
def parts (p : List String) : List String := "/" :: p

/-- Inverse of `parts` on absolute-path part lists. -/
def unparts (ps : List String) : List String :=
  match ps with
  | "/" :: rest => rest
  | _ => ps

/-- `p.relative_to(q)` on part lists: `none` models the `ValueError` raised
when `q` is not a leading sequence of `p`. -/
def relative_to (p q : List String) : Option (List String) :=
  if q.isPrefixOf p then some (p.drop q.length) else none

/-- The common-segment accumulation loop of `find_common_parent`. -/
def commonParts : List String → List String → List String
  | l :: ls, r :: rs => if l = r then l :: commonParts ls rs else []
  | _, _ => []

/-- `find_common_parent`: the common parent's parts and the number of
segments each side has beyond it. -/
def find_common_parent (left right : List String) : List String × Nat × Nat :=
  let common := commonParts left right
  (common, left.length - common.length, right.length - common.length)

inductive LinkType where
  | EXACT : LinkType
  | STARTS_WITH : LinkType
deriving DecidableEq

/-- `link_match_target`: classify whether the candidate symlink `link`
references the move target.  `.error ()` models an uncaught exception. -/
def link_match_target (fs : Fs) (link target : List String) :
    Except Unit (Option LinkType) :=
  if is_dir fs target then
    match pathResolve fs link, pathResolve fs target with
    | some lr, some tr =>
      match samefile fs (unparts (find_common_parent (parts lr) (parts tr)).1) target with
      | some b => .ok (if b then some .STARTS_WITH else none)
      | none => .error ()
    | _, _ => .error ()
  else
    match readlink fs link with
    | none => .error ()
    | some (ab, raw) =>
      let realpath := joinRel link.dropLast (ab, raw)
      if is_symlink fs realpath && !(is_symlink fs target) then .ok none
      else
        match samefile fs realpath target with
        | some b => .ok (if b then some .EXACT else none)
        | none => .error ()

/-- Raw text of a symlink as the string `find -lname` matches against. -/
def rawToString (ab : Bool) (raw : List String) : String :=
  (if ab then "/" else "") ++ String.intercalate "/" raw

/-- Substring test on character lists (the `'*name*'` glob of `find -lname`). -/
def strContains (s pat : List Char) : Bool :=
  match s with
  | [] => pat.isEmpty
  | _ :: rest => pat.isPrefixOf s || strContains rest pat

/-- `get_potential_links`: every symlink under `search_dir`, at most
`max_depth` levels below it, whose raw text contains `name`. -/
def get_potential_links (fs : Fs) (search_dir : List String) (max_depth : Nat)
    (name : String) : List (List String) :=
  (fs.filter (fun e =>
    match e.2 with
    | .symlink ab raw =>
      search_dir.isPrefixOf e.1 && decide (e.1.length - search_dir.length ≤ max_depth)
        && strContains (rawToString ab raw).toList name.toList
    | _ => false)).map (fun e => e.1)

/-- The classification loop of `move_and_relink` (lines 64-69): keep the
candidates that match, paired with their raw text and link type; the first
uncaught exception aborts the run. -/
def classifyAll (fs : Fs) (target : List String) :
    List (List String) → Except Unit (List (List String × (Bool × List String) × LinkType))
  | [] => .ok []
  | link :: rest => do
    let lt ← link_match_target fs link target
    let tail ← classifyAll fs target rest
    match lt with
    | none => .ok tail
    | some t =>
      match readlink fs link with
      | none => .error ()
      | some r => .ok ((link, r, t) :: tail)

/-- New raw text planned for one matched link (lines 72-87). -/
def planOne (fs : Fs) (target destination link : List String) (lt : LinkType) :
    Except Unit (List String) :=
  match samefile fs link.dropLast destination.dropLast with
  | none => .error ()
  | some true =>
    match lt with
    | .EXACT => .ok [destination.getLastD ""]
    | .STARTS_WITH =>
      match pathResolve fs link with
      | none => .error ()
      | some lr =>
        match relative_to lr link.dropLast with
        | none => .error ()
        | some suf => .ok ([destination.getLastD ""] ++ suf)
  | some false =>
    match pathResolve fs destination with
    | none => .error ()
    | some dr =>
      let fcp := find_common_parent (parts link) (parts dr)
      match relative_to (parts dr) fcp.1 with
      | none => .error ()
      | some down =>
        let base := List.replicate (fcp.2.1 - 1) ".." ++ down
        match lt with
        | .EXACT => .ok base
        | .STARTS_WITH =>
          match pathResolve fs link, pathResolve fs target with
          | some lr, some tr =>
            match relative_to lr tr with
            | none => .error ()
            | some suf => .ok (base ++ suf)
          | _, _ => .error ()

abbrev Plan := List (List String × (Bool × List String) × List String)

/-- The planning loop of `move_and_relink` (lines 71-89). -/
def planAll (fs : Fs) (target destination : List String) :
    List (List String × (Bool × List String) × LinkType) → Except Unit Plan
  | [] => .ok []
  | (link, old, lt) :: rest => do
    let new ← planOne fs target destination link lt
    let tail ← planAll fs target destination rest
    .ok ((link, old, new) :: tail)

/-- Discovery, classification and planning (lines 61-89): everything the run
computes before the confirmation prompt. -/
def computePlan (fs : Fs) (target destination search_dir : List String)
    (depth : Nat) : Except Unit Plan := do
  let cands := get_potential_links fs search_dir depth (target.getLastD "")
  let cls ← classifyAll fs target cands
  planAll fs target destination cls

/-- `confirm and confirm.lower()[0] == "y"`: nonempty answer whose first
character lowercases to `y` (exactly the characters `y` and `Y`). -/
def affirmative (s : String) : Bool :=
  match s.toList with
  | [] => false
  | c :: _ => c == 'y' || c == 'Y'

/-- Canonicalise every component but the last (the path a `rename`, `unlink`
or `symlink_to` syscall acts on). -/
def canonLast (fs : Fs) (p : List String) : Option (List String) :=
  match p.getLast? with
  | none => some []
  | some last =>
    if last = ".." ∨ last = "." then pathResolve fs p
    else (pathResolve fs p.dropLast).map (fun d => d ++ [last])

/-- `target.rename(destination)`: every entry at or below `src` is re-rooted
at `dst`. -/
def rename (fs : Fs) (src dst : List String) : Fs :=
  fs.map (fun e =>
    if src.isPrefixOf e.1 then (dst ++ e.1.drop src.length, e.2) else e)

/-- `link.unlink()` followed by `link.symlink_to(new)` for each planned link
(lines 112-114); the stored raw text is the relative `newpath`. -/
def applyPlan (fs0 : Fs) (plan : Plan) : Fs :=
  plan.foldl
    (fun f item =>
      f.filter (fun e => !(e.1 == item.1)) ++ [(item.1, Entry.symlink false item.2.2)])
    fs0

/-- Moving the target itself (lines 102-110): the symlink-target branch
recomputes the stored reference, the plain branch is a rename.  Errors are
detected before any mutation. -/
def commitMove (fs : Fs) (target destination : List String) : Except Unit Fs :=
  if is_symlink fs target then
    match pathResolve fs target with
    | none => .error ()
    | some rp =>
      let fcp := find_common_parent (parts destination) (parts rp)
      match relative_to (parts rp) fcp.1 with
      | none => .error ()
      | some suf =>
        let newraw := List.replicate (fcp.2.1 - 1) ".." ++ suf
        match canonLast fs destination, canonLast fs target with
        | some d, some t =>
          .ok (fs.filter (fun e => !(e.1 == t)) ++ [(d, Entry.symlink false newraw)])
        | _, _ => .error ()
  else
    match canonLast fs target, canonLast fs destination with
    | some t, some d => .ok (rename fs t d)
    | _, _ => .error ()

/-- `move_and_relink`: returns the resulting filesystem and whether the run
raised an uncaught exception (every modelled exception is raised before any
mutation, so the returned filesystem is meaningful in both cases). -/
def move_and_relink (fs : Fs) (target destination search_dir : List String)
    (depth : Nat) (confirm : String) : Fs × Bool :=
  match computePlan fs target destination search_dir depth with
  | .error _ => (fs, true)
  | .ok plan =>
    if affirmative confirm then
      match commitMove fs target destination with
      | .error _ => (fs, true)
      | .ok fs1 => (applyPlan fs1 plan, false)
    else (fs, false)

inductive Diag where
  | targetSymlink : Diag
  | targetMissing : Diag
  | destExists : Diag
  | searchMissing : Diag
deriving DecidableEq

/-- Lines 151-152: the destination argument with the target's final name
appended when the target is a file and the argument an existing directory. -/
def effectiveDestination (fs : Fs) (target destArg : List String) : List String :=
  if is_file fs target && is_dir fs destArg then destArg ++ [target.getLastD ""]
  else destArg

/-- `main` (lines 141-166): precondition checks in source order, then the
run; result is the final filesystem, the diagnostic of an early return, and
whether the run raised. -/
def mainRun (fs : Fs) (targetArg destArg searchArg : List String) (depth : Nat)
    (confirm : String) : Fs × Option Diag × Bool :=
  if is_symlink fs targetArg then (fs, some .targetSymlink, false)
  else
    let destination := effectiveDestination fs targetArg destArg
    if !(statExists fs targetArg) then (fs, some .targetMissing, false)
    else if statExists fs destination then (fs, some .destExists, false)
    else if !(statExists fs searchArg) then (fs, some .searchMissing, false)
    else
      let r := move_and_relink fs targetArg destination searchArg depth confirm
      (r.1, none, r.2)

/-- Process exit status: `main` returns normally (status 0) unless the run
raised an uncaught exception (status 1). -/
def exitCode (r : Fs × Option Diag × Bool) : Nat :=
  if r.2.2 then 1 else 0

end MoveAndRelink

namespace MoveAndRelink

/-- Filesystem of the spec's worked scenario (claim C9): `/proj/lib.so` file,
`/proj/vendor` directory, `/proj/bin/lib.so` a symlink with raw text
`../lib.so`. -/
def fsC9 : Fs :=
  [([], .dir), (["proj"], .dir), (["proj","lib.so"], .file), (["proj","vendor"], .dir),
   (["proj","bin"], .dir), (["proj","bin","lib.so"], .symlink false ["..","lib.so"])]

/-- Filesystem exhibiting the same-directory `STARTS_WITH` rewrite: target
directory `/proj/data` containing `x`, and `/proj/l` a symlink with raw text
`data/x`; the move destination is `/proj/archive`. -/
def fsC6 : Fs :=
  [([], .dir), (["proj"], .dir), (["proj","data"], .dir), (["proj","data","x"], .file),
   (["proj","l"], .symlink false ["data","x"])]

/-- Filesystem with a dangling candidate link: `/bin/l` has raw text
`../gone/lib.so`, whose resolution does not exist; the target is the file
`/lib.so`. -/
def fsC4 : Fs :=
  [([], .dir), (["lib.so"], .file), (["bin"], .dir),
   (["bin","l"], .symlink false ["..","gone","lib.so"])]

/-- Filesystem where a candidate link's one-hop resolution is itself a
symlink while the move target is a plain directory: `/b/l -> /c/data_s`,
`/c/data_s -> /data/x`, target `/data`. -/
def fsC8 : Fs :=
  [([], .dir), (["data"], .dir), (["data","x"], .file), (["c"], .dir),
   (["c","data_s"], .symlink true ["data","x"]), (["b"], .dir),
   (["b","l"], .symlink true ["c","data_s"])]

/-- Filesystem with a link-to-a-link onto a plain file: `/l -> /s -> /f`. -/
def fsC8W : Fs :=
  [([], .dir), (["f"], .file), (["s"], .symlink true ["f"]), (["l"], .symlink true ["s"])]

/-- A filesystem holding only the root directory. -/
def fsC5 : Fs := [([], .dir)]

/-- Filesystem with a directory target `/t` and an existing directory `/d`
given as the destination argument. -/
def fsC7 : Fs := [([], .dir), (["t"], .dir), (["d"], .dir)]

/-- Filesystem where the link `/b/l` resolves to the target directory
`/data` itself. -/
def fsC10 : Fs :=
  [([], .dir), (["data"], .dir), (["b"], .dir), (["b","l"], .symlink true ["data"])]

end MoveAndRelink

namespace MoveAndRelink

theorem commonParts_sub_left : ∀ (A B : List String), commonParts A B <+: A
  | [], _ => by simp [commonParts]
  | _ :: _, [] => by simp [commonParts]
  | a :: as, b :: bs => by
    by_cases h : a = b
    · simpa [commonParts, h] using (commonParts_sub_left as bs)
    · simp [commonParts, h]

theorem commonParts_sub_right : ∀ (A B : List String), commonParts A B <+: B
  | [], _ => by simp [commonParts]
  | _ :: _, [] => by simp [commonParts]
  | a :: as, b :: bs => by
    by_cases h : a = b
    · simpa [commonParts, h] using (commonParts_sub_right as bs)
    · simp [commonParts, h]

theorem commonParts_max : ∀ (C A B : List String), C <+: A → C <+: B → C <+: commonParts A B
  | [], _, _, _, _ => List.nil_prefix
  | _ :: _, [], _, hA, _ => by simp at hA
  | _ :: _, _ :: _, [], _, hB => by simp at hB
  | c :: cs, a :: as, b :: bs, hA, hB => by
    obtain ⟨rfl, hA'⟩ := (List.cons_prefix_cons).1 hA
    obtain ⟨rfl, hB'⟩ := (List.cons_prefix_cons).1 hB
    simpa [commonParts] using (commonParts_max cs as bs hA' hB')

theorem commonParts_self : ∀ (l : List String), commonParts l l = l
  | [] => by simp [commonParts]
  | a :: as => by simp [commonParts, commonParts_self as]

/-- Claim C2: `find_common_parent A B` returns a common leading segment
sequence of `A` and `B` that is maximal (every common leading sequence `C` is
a prefix of it), with the left depth equal to `len A - len P` and
`leftDepth + len P = len A` (symmetrically on the right, both depths being
natural numbers and hence non-negative). -/
theorem find_common_parent_correct (A B C : List String)
    (hCA : C <+: A) (hCB : C <+: B) :
    (find_common_parent A B).1 <+: A ∧
    (find_common_parent A B).1 <+: B ∧
    C <+: (find_common_parent A B).1 ∧
    (find_common_parent A B).2.1 = A.length - (find_common_parent A B).1.length ∧
    (find_common_parent A B).2.1 + (find_common_parent A B).1.length = A.length ∧
    (find_common_parent A B).2.2 + (find_common_parent A B).1.length = B.length := by
  refine ⟨commonParts_sub_left A B, commonParts_sub_right A B,
    commonParts_max C A B hCA hCB, rfl, ?_, ?_⟩
  · have h := (commonParts_sub_left A B).length_le
    simp only [find_common_parent]
    omega
  · have h := (commonParts_sub_right A B).length_le
    simp only [find_common_parent]
    omega

/-- Witness for claim C2 at the parts of `/proj/bin/lib.so` and
`/proj/vendor/lib.so`, with `/proj` as a common leading sequence. -/
theorem find_common_parent_correct_witness :
    (find_common_parent ["/","proj","bin","lib.so"] ["/","proj","vendor","lib.so"]).1
      <+: ["/","proj","bin","lib.so"] ∧
    (find_common_parent ["/","proj","bin","lib.so"] ["/","proj","vendor","lib.so"]).1
      <+: ["/","proj","vendor","lib.so"] ∧
    ["/","proj"] <+: (find_common_parent ["/","proj","bin","lib.so"] ["/","proj","vendor","lib.so"]).1 ∧
    (find_common_parent ["/","proj","bin","lib.so"] ["/","proj","vendor","lib.so"]).2.1
      = (["/","proj","bin","lib.so"] : List String).length
        - (find_common_parent ["/","proj","bin","lib.so"] ["/","proj","vendor","lib.so"]).1.length ∧
    (find_common_parent ["/","proj","bin","lib.so"] ["/","proj","vendor","lib.so"]).2.1
      + (find_common_parent ["/","proj","bin","lib.so"] ["/","proj","vendor","lib.so"]).1.length
      = (["/","proj","bin","lib.so"] : List String).length ∧
    (find_common_parent ["/","proj","bin","lib.so"] ["/","proj","vendor","lib.so"]).2.2
      + (find_common_parent ["/","proj","bin","lib.so"] ["/","proj","vendor","lib.so"]).1.length
      = (["/","proj","vendor","lib.so"] : List String).length :=
  find_common_parent_correct _ _ ["/","proj"] (by decide) (by decide)

end MoveAndRelink

namespace MoveAndRelink

theorem move_and_relink_decline (fs : Fs) (target destination search_dir : List String)
    (depth : Nat) (confirm : String) (h : affirmative confirm = false) :
    (move_and_relink fs target destination search_dir depth confirm).1 = fs := by
  unfold move_and_relink
  cases hp : computePlan fs target destination search_dir depth with
  | error e => rfl
  | ok plan => simp [h]

/-- Claim C3: whenever the confirmation prompt is answered with anything
other than an affirmative (a nonempty answer starting with `y` or `Y`), the
run leaves the filesystem exactly as it was: every path maps to the same
entry before and after. -/
theorem decline_leaves_filesystem_unchanged (fs : Fs)
    (targetArg destArg searchArg : List String) (depth : Nat) (confirm : String)
    (h : affirmative confirm = false) :
    (mainRun fs targetArg destArg searchArg depth confirm).1 = fs := by
  unfold mainRun
  by_cases h1 : is_symlink fs targetArg
  · simp [h1]
  · by_cases h2 : statExists fs targetArg
    · by_cases h3 : statExists fs (effectiveDestination fs targetArg destArg)
      · simp [h1, h2, h3]
      · by_cases h4 : statExists fs searchArg
        · simp [h1, h2, h3, h4, move_and_relink_decline fs targetArg
            (effectiveDestination fs targetArg destArg) searchArg depth confirm h]
        · simp [h1, h2, h3, h4]
    · simp [h1, h2]

/-- Witness for claim C3: on the scenario filesystem, answering `n` leaves
the filesystem untouched. -/
theorem decline_leaves_filesystem_unchanged_witness :
    affirmative "n" = false ∧
    (mainRun fsC9 ["proj","lib.so"] ["proj","vendor","lib.so"] ["proj"] 5 "n").1 = fsC9 :=
  ⟨by rfl, decline_leaves_filesystem_unchanged fsC9 ["proj","lib.so"]
    ["proj","vendor","lib.so"] ["proj"] 5 "n" (by rfl)⟩

/-- Counterexample to claim C5 as stated: with a missing target the script
prints a diagnostic and returns normally, so the process exit status is `0`,
not non-zero. -/
theorem precondition_error_counterexample :
    (mainRun fsC5 ["nope"] ["dest"] [] 5 "y").2.1 = some .targetMissing ∧
    exitCode (mainRun fsC5 ["nope"] ["dest"] [] 5 "y") = 0 :=
  ⟨by rfl, by rfl⟩

/-- Claim C5 as amended: whenever the target is a symlink, or the target does
not exist, or the effective destination (after the directory-append
adjustment) exists, or the search directory does not exist, `main` stops
before discovery with a diagnostic, the filesystem is unchanged, and the
process terminates normally with exit status `0` (not non-zero). -/
theorem precondition_error_early_return (fs : Fs)
    (targetArg destArg searchArg : List String) (depth : Nat) (confirm : String)
    (h : is_symlink fs targetArg = true ∨ statExists fs targetArg = false ∨
         statExists fs (effectiveDestination fs targetArg destArg) = true ∨
         statExists fs searchArg = false) :
    (mainRun fs targetArg destArg searchArg depth confirm).1 = fs ∧
    (mainRun fs targetArg destArg searchArg depth confirm).2.1 ≠ none ∧
    (mainRun fs targetArg destArg searchArg depth confirm).2.2 = false ∧
    exitCode (mainRun fs targetArg destArg searchArg depth confirm) = 0 := by
  unfold mainRun exitCode
  by_cases h1 : is_symlink fs targetArg
  · simp [h1]
  · by_cases h2 : statExists fs targetArg
    · by_cases h3 : statExists fs (effectiveDestination fs targetArg destArg)
      · simp [h1, h2, h3]
      · by_cases h4 : statExists fs searchArg
        · simp [h1, h2, h3, h4] at h ⊢
        · simp [h1, h2, h3, h4]
    · simp [h1, h2]

/-- Witness for claim C5 (amended) at a filesystem with a missing target. -/
theorem precondition_error_early_return_witness :
    (mainRun fsC5 ["miss"] ["dest"] [] 5 "y").1 = fsC5 ∧
    (mainRun fsC5 ["miss"] ["dest"] [] 5 "y").2.1 ≠ none ∧
    (mainRun fsC5 ["miss"] ["dest"] [] 5 "y").2.2 = false ∧
    exitCode (mainRun fsC5 ["miss"] ["dest"] [] 5 "y") = 0 :=
  precondition_error_early_return fsC5 ["miss"] ["dest"] [] 5 "y" (Or.inr (Or.inl (by rfl)))

/-- Counterexample to claim C7 as stated: `/d` is an existing directory given
as the destination argument, yet with the directory target `/t` the target's
final name is not appended — the effective destination stays `/d`. -/
theorem append_name_counterexample :
    is_dir fsC7 ["d"] = true ∧
    effectiveDestination fsC7 ["t"] ["d"] = ["d"] ∧
    (["d"] : List String) ≠ ["d","t"] :=
  ⟨by rfl, by rfl, by decide⟩

/-- Claim C7 as amended: when the target is a regular file and the destination
argument names an existing directory, the target's final name is appended to
the destination argument to form the real destination path. -/
theorem append_name_when_file_and_dir (fs : Fs) (target destArg : List String)
    (hf : is_file fs target = true) (hd : is_dir fs destArg = true) :
    effectiveDestination fs target destArg = destArg ++ [target.getLastD ""] := by
  unfold effectiveDestination
  simp [hf, hd]

/-- Witness for claim C7 (amended): the file target `/proj/lib.so` and the
existing directory `/proj/vendor` yield `/proj/vendor/lib.so`. -/
theorem append_name_when_file_and_dir_witness :
    effectiveDestination fsC9 ["proj","lib.so"] ["proj","vendor"]
      = ["proj","vendor"] ++ [(["proj","lib.so"] : List String).getLastD ""] :=
  append_name_when_file_and_dir fsC9 ["proj","lib.so"] ["proj","vendor"] (by rfl) (by rfl)

end MoveAndRelink

namespace MoveAndRelink

theorem is_dir_statEntry (fs : Fs) (p : List String) (h : is_dir fs p = true) :
    statEntry fs p = some .dir := by
  unfold is_dir at h
  cases he : statEntry fs p with
  | none => rw [he] at h; exact absurd h (by simp)
  | some e => cases e <;> rw [he] at h <;> first | rfl | exact absurd h (by simp)

/-- Claim C10: when the move target is a directory, classification never
returns `EXACT`; and a link whose full resolution is same-entity with the
target directory itself (both canonicalise to the same existing `c`, with `c`
in canonical form) is classified `STARTS_WITH`. -/
theorem dir_target_never_exact (fs : Fs) (link target : List String)
    (hdir : is_dir fs target = true) :
    link_match_target fs link target ≠ .ok (some .EXACT) ∧
    (∀ c, pathResolve fs link = some c → pathResolve fs target = some c →
      pathResolve fs c = some c →
      link_match_target fs link target = .ok (some .STARTS_WITH)) := by
  constructor
  · unfold link_match_target
    simp only [hdir, if_true]
    cases hl : pathResolve fs link with
    | none => simp
    | some lr =>
      cases ht : pathResolve fs target with
      | none => simp
      | some tr =>
        cases hs : samefile fs (unparts (find_common_parent (parts lr) (parts tr)).1) target with
        | none => simp [hs]
        | some b => cases b <;> simp [hs]
  · intro c h1 h2 h3
    have hlook : lookup fs c = some .dir := by
      have := is_dir_statEntry fs target hdir
      unfold statEntry at this
      rw [h2] at this
      simpa using this
    have hcommon : (find_common_parent (parts c) (parts c)).1 = parts c := by
      unfold find_common_parent
      exact commonParts_self (parts c)
    have hsame : samefile fs (unparts (parts c)) target = some true := by
      unfold samefile
      have hu : unparts (parts c) = c := rfl
      rw [hu, h3, h2]
      simp [hlook]
    unfold link_match_target
    simp only [hdir, if_true, h1, h2, hcommon, hsame]

/-- Witness for claim C10: `/b/l` resolves to the target directory `/data`
itself and is classified `STARTS_WITH`, not `EXACT`. -/
theorem dir_target_never_exact_witness :
    is_dir fsC10 ["data"] = true ∧
    link_match_target fsC10 ["b","l"] ["data"] ≠ .ok (some .EXACT) ∧
    link_match_target fsC10 ["b","l"] ["data"] = .ok (some .STARTS_WITH) :=
  ⟨by rfl, (dir_target_never_exact fsC10 ["b","l"] ["data"] (by rfl)).1,
    (dir_target_never_exact fsC10 ["b","l"] ["data"] (by rfl)).2 ["data"]
      (by rfl) (by rfl) (by rfl)⟩

/-- Counterexample to claim C8 as stated: the candidate `/b/l` has one-hop
resolution `/c/data_s`, itself a symlink, and the move target `/data` is not
a symlink, yet classification returns `STARTS_WITH` (the target is a
directory, so the symlink-to-symlink guard is never reached), not `NoMatch`. -/
theorem link_to_link_counterexample :
    readlink fsC8 ["b","l"] = some (true, ["c","data_s"]) ∧
    is_symlink fsC8 (joinRel ((["b","l"] : List String).dropLast) (true, ["c","data_s"])) = true ∧
    is_symlink fsC8 ["data"] = false ∧
    link_match_target fsC8 ["b","l"] ["data"] = .ok (some .STARTS_WITH) :=
  ⟨by rfl, by rfl, by rfl, by rfl⟩

/-- Claim C8 as amended: for a move target that is neither a directory nor a
symlink, a candidate link whose immediate one-hop resolution is itself a
symlink is classified `NoMatch` (`None`). -/
theorem link_to_link_no_match (fs : Fs) (link target : List String)
    (ab : Bool) (raw : List String)
    (hnd : is_dir fs target = false)
    (hrl : readlink fs link = some (ab, raw))
    (hsym : is_symlink fs (joinRel link.dropLast (ab, raw)) = true)
    (htns : is_symlink fs target = false) :
    link_match_target fs link target = .ok none := by
  unfold link_match_target
  simp only [hnd, Bool.false_eq_true, if_false, hrl, hsym, htns]
  simp

/-- Witness for claim C8 (amended): for the plain-file target `/f`, the
link-to-a-link `/l -> /s -> /f` classifies as `NoMatch`. -/
theorem link_to_link_no_match_witness :
    link_match_target fsC8W ["l"] ["f"] = .ok none :=
  link_to_link_no_match fsC8W ["l"] ["f"] true ["s"] (by rfl) (by rfl) (by rfl) (by rfl)

/-- Claim C4, behaviour at the failing input: the dangling candidate link
`/bin/l -> ../gone/lib.so` is discovered, its resolution target does not
exist, and classification raises (models `Path.samefile` raising
`FileNotFoundError`) instead of returning `NoMatch`. -/
theorem dangling_link_raises :
    get_potential_links fsC4 [] 5 "lib.so" = [["bin","l"]] ∧
    statExists fsC4 (joinRel ((["bin","l"] : List String).dropLast)
      (false, ["..","gone","lib.so"])) = false ∧
    link_match_target fsC4 ["bin","l"] ["lib.so"] = .error () :=
  ⟨by rfl, by rfl, by rfl⟩

/-- Claim C9: on the spec's scenario — target `/proj/lib.so`, destination
`/proj/vendor/lib.so`, search root `/proj`, link `/proj/bin/lib.so` with raw
text `../lib.so` — the computed plan rewrites that link's raw text to
`../vendor/lib.so`. -/
theorem scenario_plan_rewrite :
    computePlan fsC9 ["proj","lib.so"] ["proj","vendor","lib.so"] ["proj"] 5
      = .ok [(["proj","bin","lib.so"], (false, ["..","lib.so"]), ["..","vendor","lib.so"])] ∧
    rawToString false ["..","vendor","lib.so"] = "../vendor/lib.so" :=
  ⟨by rfl, by rfl⟩

end MoveAndRelink

namespace MoveAndRelink

/-- Claim C6, behaviour at the failing input: for the same-directory
`STARTS_WITH` link `/proj/l -> data/x` with target directory `/proj/data`
and destination `/proj/archive`, the planned raw text is
`archive/data/x` — the suffix is taken relative to the link's parent
(`data/x`) — whereas the suffix of the link's resolved path relative to the
old target directory is `x`, so the claimed raw text would be `archive/x`. -/
theorem samedir_suffix_relative_to_link_parent :
    computePlan fsC6 ["proj","data"] ["proj","archive"] ["proj"] 5
      = .ok [(["proj","l"], (false, ["data","x"]), ["archive","data","x"])] ∧
    pathResolve fsC6 ["proj","l"] = some ["proj","data","x"] ∧
    relative_to ["proj","data","x"] ["proj","data"] = some ["x"] ∧
    (["archive","data","x"] : List String) ≠ ["archive"] ++ ["x"] :=
  ⟨by rfl, by rfl, by rfl, by decide⟩

/-- Claim C1, behaviour at the failing input: committing the plan for the
same-directory `STARTS_WITH` link `/proj/l` (target `/proj/data` moved to
`/proj/archive`) rewrites the link to `archive/data/x`; resolving the new
raw text at the link's unchanged location yields `/proj/archive/data/x`,
which does not exist, so it is not same-entity with the relocated sub-path
`/proj/archive/x` (which does hold the moved file). -/
theorem roundtrip_guarantee_violated :
    (move_and_relink fsC6 ["proj","data"] ["proj","archive"] ["proj"] 5 "y").2 = false ∧
    lookup (move_and_relink fsC6 ["proj","data"] ["proj","archive"] ["proj"] 5 "y").1
      ["proj","l"] = some (.symlink false ["archive","data","x"]) ∧
    pathResolve (move_and_relink fsC6 ["proj","data"] ["proj","archive"] ["proj"] 5 "y").1
      ["proj","l"] = some ["proj","archive","data","x"] ∧
    statEntry (move_and_relink fsC6 ["proj","data"] ["proj","archive"] ["proj"] 5 "y").1
      ["proj","archive","x"] = some .file ∧
    samefile (move_and_relink fsC6 ["proj","data"] ["proj","archive"] ["proj"] 5 "y").1
      ["proj","l"] ["proj","archive","x"] = none :=
  ⟨by rfl, by rfl, by rfl, by rfl, by rfl⟩

end MoveAndRelink
